import Mathlib

/-!
Shallow embedding of the CrimeCast repository's two core components:

* the inference adapter `CrimePredictorAPI` (src/src/predictor.py), and
* the credential store `UserDatabase` (src/auth/database.py),

together with theorems settling the specification claims about them.
Python values flowing through the adapter are modelled by `PyVal`;
machine floats are modelled by exact rationals, storage faults by
explicit fault flags on the storage state, and the bcrypt salted hash
by an injective pairing of salt and password.
-/

namespace CrimeCast

/-- A raw Python value supplied in a feature record: `None`, a number,
or a string. -/
inductive PyVal where
  | none : PyVal
  | num (q : ℚ) : PyVal
  | str (s : String) : PyVal
deriving DecidableEq, Repr

/-- Digits-only parse of a nonempty character list to a natural number;
`none` on an empty list or any non-digit character. -/
def parseNatDigits : List Char → Option ℕ
  | [] => Option.none
  | cs =>
    if cs.all Char.isDigit then
      Option.some (cs.foldl (fun n c => 10 * n + (c.toNat - 48)) 0)
    else
      Option.none

/-- Model of Python's `float(s)` on a decimal string literal:
optional sign, integer part, optional fractional part.  Returns `none`
when the string is not a decimal literal (Python raises `ValueError`). -/
def parseDecimal (s : String) : Option ℚ :=
  let cs := s.data
  let signAndRest : ℚ × List Char :=
    match cs with
    | '-' :: r => (-1, r)
    | '+' :: r => (1, r)
    | r => (1, r)
  let sign := signAndRest.1
  let rest := signAndRest.2
  let intPart := rest.takeWhile (fun c => c ≠ '.')
  let afterInt := rest.dropWhile (fun c => c ≠ '.')
  match afterInt with
  | [] =>
    match parseNatDigits intPart with
    | Option.some n => Option.some (sign * n)
    | Option.none => Option.none
  | '.' :: frac =>
    if intPart = [] ∧ frac = [] then Option.none
    else if intPart = [] then
      match parseNatDigits frac with
      | Option.some f => Option.some (sign * (f : ℚ) / (10 : ℚ) ^ frac.length)
      | Option.none => Option.none
    else if frac = [] then
      match parseNatDigits intPart with
      | Option.some n => Option.some (sign * n)
      | Option.none => Option.none
    else
      match parseNatDigits intPart, parseNatDigits frac with
      | Option.some n, Option.some f =>
        Option.some (sign * ((n : ℚ) + (f : ℚ) / (10 : ℚ) ^ frac.length))
      | _, _ => Option.none
  | _ :: _ => Option.none

/-- Model of Python's `float(value)` coercion on a `PyVal`: numbers pass
through, decimal strings parse, everything else raises
(`ValueError`/`TypeError`), modelled as `none`. -/
def pyFloat? : PyVal → Option ℚ
  | PyVal.none => Option.none
  | PyVal.num q => Option.some q
  | PyVal.str s => parseDecimal s

/-- A fitted `LabelEncoder` is its `classes_` list: the ordered vocabulary
of category strings seen at training time; `transform` of a seen string is
its index in that list. -/
abbrev LabelEncoder := List String

/-- Model of `LabelEncoder.transform([value])[0]`: the index of the string
in the fitted vocabulary, `none` when the value was never seen during
training or is not a string (sklearn raises `ValueError`). -/
def leTransform? (classes : LabelEncoder) (v : PyVal) : Option ℕ :=
  match v with
  | PyVal.str s => classes.indexOf? s
  | _ => Option.none

/-- Warnings recorded by the adapter via `logger.warning` while building a
feature array (side-effect logging modelled as writer output). -/
inductive Warning where
  | missingSummary (names : List String) : Warning
  | extraSummary (names : List String) : Warning
  | unseenCategory (feature : String) : Warning
  | nonNumeric (feature : String) : Warning
  | missingFeature (feature : String) : Warning
deriving DecidableEq, Repr

/-- The exact feature order expected by the model
(`CrimePredictorAPI.__init__`, predictor.py lines 20-24). -/
def expected_features : List String :=
  ["Latitude", "Longitude", "Beat", "District", "Ward",
   "Community Area", "Hour", "DayOfWeek", "Month", "Year",
   "Location_Description_Clean", "TimeOfDay", "Season"]

/-- The three categorical features special-cased in
`create_feature_array` (predictor.py line 65). -/
def categorical_features : List String :=
  ["Location_Description_Clean", "TimeOfDay", "Season"]

/-- The state of a `CrimePredictorAPI` instance after `__init__`: the
loaded classifier (its two inference entry points abstracted as functions
of the final numeric vector), the optional fitted scaler, and the optional
fitted per-feature label encoders. -/
structure CrimePredictorAPI where
  model_predict_proba : List PyVal → ℚ
  model_predict : List PyVal → ℤ
  feature_scaler : Option (List PyVal → List PyVal)
  label_encoders : Option (List (String × LabelEncoder))

/-- Embedding of `CrimePredictorAPI._encode_categorical_value` (predictor.py lines
32-41): when a fitted encoder exists for the feature, transform the value,
falling back to code 0 with a warning on an unseen category; otherwise
pass the raw value through. -/
def _encode_categorical_value (encoders : Option (List (String × LabelEncoder)))
    (feature : String) (value : PyVal) : PyVal × List Warning :=
  match encoders with
  | Option.some encs =>
    match encs.lookup feature with
    | Option.some classes =>
      match leTransform? classes value with
      | Option.some code => (PyVal.num code, [])
      | Option.none => (PyVal.num 0, [Warning.unseenCategory feature])
    | Option.none => (value, [])
  | Option.none => (value, [])

/-- A feature record: the Python dict passed to `predict`, modelled as an
association list with dict lookup semantics. -/
abbrev FeatureDict := List (String × PyVal)

/-- The missing-feature set of `_validate_input_features`
(predictor.py line 45): expected features with no supplied key. -/
def missing_keys (d : FeatureDict) : List String :=
  expected_features.filter (fun f => (d.lookup f).isNone)

/-- The extra-key set of `_validate_input_features`: supplied keys that
are not expected features. -/
def extra_keys (d : FeatureDict) : List String :=
  (d.map Prod.fst).filter (fun k => ¬ k ∈ expected_features)

/-- Embedding of `CrimePredictorAPI._validate_input_features` (predictor.py lines
43-51): one warning naming the missing expected features, one naming the
extra supplied keys, each only when nonempty. -/
def _validate_input_features (d : FeatureDict) : List Warning :=
  (if missing_keys d = [] then [] else [Warning.missingSummary (missing_keys d)]) ++
    (if extra_keys d = [] then [] else [Warning.extraSummary (extra_keys d)])

/-- The body of the `for feature in self.expected_features` loop of
`create_feature_array` (predictor.py lines 60-78): the value appended for
one feature and the warnings logged for it. -/
def feature_slot (encoders : Option (List (String × LabelEncoder)))
    (d : FeatureDict) (feature : String) : PyVal × List Warning :=
  match d.lookup feature with
  | Option.some value =>
    if feature ∈ categorical_features then
      _encode_categorical_value encoders feature value
    else
      match pyFloat? value with
      | Option.some q => (PyVal.num q, [])
      | Option.none => (PyVal.num 0, [Warning.nonNumeric feature])
  | Option.none => (PyVal.num 0, [Warning.missingFeature feature])

/-- Embedding of `CrimePredictorAPI.create_feature_array` (predictor.py lines 53-80):
validate, then append one entry per expected feature in the fixed order.
Returns the built array together with all warnings logged. -/
def create_feature_array (encoders : Option (List (String × LabelEncoder)))
    (d : FeatureDict) : List PyVal × List Warning :=
  expected_features.foldl
    (fun acc feature =>
      (acc.1 ++ [(feature_slot encoders d feature).1],
       acc.2 ++ (feature_slot encoders d feature).2))
    ([], _validate_input_features d)

/-- Embedding of `CrimePredictorAPI._get_risk_level` (predictor.py lines 120-127). -/
def _get_risk_level (probability : ℚ) : String :=
  if probability > (0.7 : ℚ) then "High"
  else if probability > (0.4 : ℚ) then "Medium"
  else "Low"

/-- The success dict returned by `CrimePredictorAPI.predict`
(predictor.py lines 103-110). -/
structure PredictResult where
  prediction : ℤ
  probability : ℚ
  risk_level : String
  features_used : List String
  feature_values : List PyVal
  success : Bool
deriving DecidableEq, Repr

/-- Embedding of `CrimePredictorAPI.predict` (predictor.py lines 82-118): build the
feature array, scale it when a scaler is loaded, query the classifier,
and assemble the result dict. -/
def predict (api : CrimePredictorAPI) (d : FeatureDict) : PredictResult :=
  let features_array := (create_feature_array api.label_encoders d).1
  let scaled :=
    match api.feature_scaler with
    | Option.some sc => sc features_array
    | Option.none => features_array
  let probability := api.model_predict_proba scaled
  let prediction := api.model_predict scaled
  { prediction := prediction
    probability := probability
    risk_level := _get_risk_level probability
    features_used := expected_features
    feature_values := scaled
    success := true }

/-- The risk-tier map as §4.2 step 7 of the spec words it, parametrised by
the Medium-tier lower bound (the spec names both 0.3 and 0.4). -/
def risk_tier_spec (mediumLow : ℚ) (probability : ℚ) : String :=
  if probability > (0.7 : ℚ) then "High"
  else if probability > mediumLow then "Medium"
  else "Low"

/-- The inline risk caption in `show_prediction_page`
(app.py line 312): `"High risk" if p > 0.7 else "Medium risk" if p > 0.3
else "Low risk"`. -/
def app_delta_caption (probability : ℚ) : String :=
  if probability > (0.7 : ℚ) then "High risk"
  else if probability > (0.3 : ℚ) then "Medium risk"
  else "Low risk"

/-! ## Credential store (src/auth/database.py) -/

/-- A bcrypt salted hash, modelled as an injective pairing of the salt
drawn by `gensalt()` with the hashed password (collision-free model of
`bcrypt.hashpw`). -/
structure HashedPassword where
  salt : ℕ
  body : String
deriving DecidableEq, Repr

/-- Model of `bcrypt.hashpw(password, gensalt())`; the salt is threaded
in explicitly. -/
def hashpw (password : String) (salt : ℕ) : HashedPassword :=
  { salt := salt, body := password }

/-- Model of `bcrypt.checkpw(password, stored)`: the hash verifies
exactly when the same password was hashed. -/
def checkpw (password : String) (stored : HashedPassword) : Bool :=
  stored.body == password

/-- One row of the `users` table (database.py lines 17-31). -/
structure UserRow where
  id : ℕ
  email : String
  password : HashedPassword
  name : String
  phone : Option String
  address : Option String
  profile_picture : Option (List ℕ)
  role : String
  is_active : Bool
  created_at : ℕ
  last_login : Option ℕ
deriving DecidableEq, Repr

/-- One row of the `access_logs` table (database.py lines 46-56). -/
structure LogRow where
  id : ℕ
  user_id : Option ℕ
  action : String
  page : String
  timestamp : ℕ
  ip_address : String
deriving DecidableEq, Repr

/-- The SQLite database state behind a `UserDatabase`, with explicit
fault flags injecting storage-layer exceptions at write statements. -/
structure Storage where
  users : List UserRow
  access_logs : List LogRow
  next_user_id : ℕ
  next_log_id : ℕ
  fail_users_write : Bool
  fail_logs_write : Bool
deriving DecidableEq, Repr

/-- Exceptions the storage layer can raise: `sqlite3.IntegrityError`
from the UNIQUE email constraint, or an operational failure injected by
a fault flag. -/
inductive PyError where
  | integrityError : PyError
  | operationalError (msg : String) : PyError
deriving DecidableEq, Repr

/-- Model of `str(e)` for a storage exception. -/
def PyError.message : PyError → String
  | PyError.integrityError => "UNIQUE constraint failed: users.email"
  | PyError.operationalError msg => msg

/-- The `INSERT INTO users ...` statement of `create_user` (database.py
lines 78-81) plus `cursor.lastrowid`: raises on a fault or a duplicate
email, otherwise appends the row with schema defaults. -/
def sql_insert_user (s : Storage) (email : String) (password : HashedPassword)
    (name : String) (phone address : Option String) (role : String) (now : ℕ) :
    Except PyError (Storage × ℕ) :=
  if s.fail_users_write then
    Except.error (PyError.operationalError "disk I/O error")
  else if s.users.any (fun u => u.email == email) then
    Except.error PyError.integrityError
  else
    Except.ok
      ({ s with
          users := s.users ++
            [{ id := s.next_user_id, email := email, password := password,
               name := name, phone := phone, address := address,
               profile_picture := Option.none, role := role,
               is_active := true, created_at := now,
               last_login := Option.none }],
          next_user_id := s.next_user_id + 1 },
        s.next_user_id)

/-- The `INSERT INTO access_logs ...` statement of `log_action`
(database.py lines 146-149). -/
def sql_insert_log (s : Storage) (user_id : Option ℕ) (action page ip : String)
    (now : ℕ) : Except PyError Storage :=
  if s.fail_logs_write then
    Except.error (PyError.operationalError "disk I/O error")
  else
    Except.ok
      { s with
          access_logs := s.access_logs ++
            [{ id := s.next_log_id, user_id := user_id, action := action,
               page := page, timestamp := now, ip_address := ip }],
          next_log_id := s.next_log_id + 1 }

/-- The `UPDATE users SET password = ? WHERE id = ?` statement
(database.py lines 245-247): zero matched rows is not an error. -/
def sql_update_password (s : Storage) (uid : ℕ) (h : HashedPassword) :
    Except PyError Storage :=
  if s.fail_users_write then
    Except.error (PyError.operationalError "disk I/O error")
  else
    Except.ok
      { s with
          users := s.users.map
            (fun u => if u.id == uid then { u with password := h } else u) }

/-- The `UPDATE users SET is_active = ? WHERE id = ?` statement
(database.py lines 227-229). -/
def sql_update_active (s : Storage) (uid : ℕ) (flag : Bool) :
    Except PyError Storage :=
  if s.fail_users_write then
    Except.error (PyError.operationalError "disk I/O error")
  else
    Except.ok
      { s with
          users := s.users.map
            (fun u => if u.id == uid then { u with is_active := flag } else u) }

/-- Embedding of `UserDatabase.update_last_login` (database.py lines 129-137): a bare
UPDATE with no try/except of its own. -/
def update_last_login (s : Storage) (uid : ℕ) (now : ℕ) :
    Except PyError Storage :=
  if s.fail_users_write then
    Except.error (PyError.operationalError "disk I/O error")
  else
    Except.ok
      { s with
          users := s.users.map
            (fun u =>
              if u.id == uid then { u with last_login := Option.some now } else u) }

/-- Embedding of `UserDatabase.log_action` (database.py lines 139-155): best-effort
audit append; any exception is swallowed (the `details` argument is not
stored — the INSERT writes fixed page and address placeholders). -/
def log_action (s : Storage) (user_id : Option ℕ) (action _details : String)
    (now : ℕ) : Storage :=
  match sql_insert_log s user_id action "N/A" "127.0.0.1" now with
  | Except.ok s1 => s1
  | Except.error _ => s

/-- Embedding of `UserDatabase.create_user` (database.py lines 71-92): hash, insert,
best-effort audit log; `IntegrityError` becomes the duplicate-email
message, any other exception becomes a generic failure message. -/
def create_user (s : Storage) (email password name : String)
    (phone address : Option String) (role : String) (salt now : ℕ) :
    Storage × Bool × String :=
  match sql_insert_user s email (hashpw password salt) name phone address role now with
  | Except.ok (s1, uid) =>
    let s2 := log_action s1 (Option.some uid) "USER_SIGNUP"
      ("New user registered: " ++ email) now
    (s2, true, "User created successfully")
  | Except.error PyError.integrityError => (s, false, "Email already exists")
  | Except.error e => (s, false, "Error creating user: " ++ e.message)

/-- The account dict returned on successful authentication
(database.py lines 113-123). -/
structure UserInfo where
  id : ℕ
  email : String
  name : String
  phone : Option String
  address : Option String
  role : String
  profile_picture : Option (List ℕ)
  created_at : ℕ
  last_login : Option ℕ
deriving DecidableEq, Repr

/-- Projection of a fetched row to the returned account dict. -/
def user_info_of (u : UserRow) : UserInfo :=
  { id := u.id, email := u.email, name := u.name, phone := u.phone,
    address := u.address, role := u.role,
    profile_picture := u.profile_picture, created_at := u.created_at,
    last_login := u.last_login }

/-- The second component of `authenticate_user`'s return pair: an account
dict on success, a message string on failure. -/
inductive AuthReply where
  | user (info : UserInfo) : AuthReply
  | msg (m : String) : AuthReply
deriving DecidableEq, Repr

/-- The `SELECT ... FROM users WHERE email = ? AND is_active = 1` plus
`fetchone()` of `authenticate_user` (database.py lines 100-106). -/
def fetch_active_user (s : Storage) (email : String) : Option UserRow :=
  (s.users.filter (fun u => u.email == email && u.is_active)).head?

/-- Embedding of `UserDatabase.authenticate_user` (database.py lines 94-127): fetch
the active row for the email, verify the hash, update last login and
audit on success; all failures inside the try surface as a caught
message, and both no-row and hash-mismatch return the one generic
invalid-credentials pair. -/
def authenticate_user (s : Storage) (email password : String) (now : ℕ) :
    Storage × Bool × AuthReply :=
  match
    (match fetch_active_user s email with
     | Option.some u =>
       if checkpw password u.password then
         match update_last_login s u.id now with
         | Except.ok s1 =>
           let s2 := log_action s1 (Option.some u.id) "USER_LOGIN" "User logged in" now
           Except.ok (s2, true, AuthReply.user (user_info_of u))
         | Except.error e => Except.error e
       else
         Except.ok (s, false, AuthReply.msg "Invalid email or password")
     | Option.none =>
       Except.ok (s, false, AuthReply.msg "Invalid email or password"))
  with
  | Except.ok r => r
  | Except.error e => (s, false, AuthReply.msg ("Authentication error: " ++ e.message))

/-- Embedding of `UserDatabase.toggle_user_active_status` (database.py lines 222-237). -/
def toggle_user_active_status (s : Storage) (uid : ℕ) (is_active : Bool)
    (now : ℕ) : Storage × Bool × String :=
  match sql_update_active s uid is_active with
  | Except.ok s1 =>
    let status_text := if is_active then "activated" else "deactivated"
    let s2 := log_action s1 (Option.some uid) "USER_STATUS_CHANGE"
      ("User " ++ status_text) now
    (s2, true, "User " ++ status_text ++ " successfully")
  | Except.error e => (s, false, "Error updating user status: " ++ e.message)

/-- Embedding of `UserDatabase.change_user_password` (database.py lines 239-254). -/
def change_user_password (s : Storage) (uid : ℕ) (new_password : String)
    (salt now : ℕ) : Storage × Bool × String :=
  match sql_update_password s uid (hashpw new_password salt) with
  | Except.ok s1 =>
    let s2 := log_action s1 (Option.some uid) "PASSWORD_CHANGE"
      "User password changed" now
    (s2, true, "Password changed successfully")
  | Except.error e => (s, false, "Error changing password: " ++ e.message)

/-! ## Concrete witness inputs -/

/-- Restriction of a feature record to the expected feature names. -/
def restrict (d : FeatureDict) : FeatureDict :=
  d.filter (fun kv => kv.1 ∈ expected_features)

/-- The fitted per-feature vocabularies of a stub artifact bundle
(each `classes_` list sorted, as sklearn produces). -/
def stubEncoders : List (String × LabelEncoder) :=
  [("Location_Description_Clean", ["APARTMENT", "RESIDENCE", "STREET"]),
   ("TimeOfDay", ["Afternoon", "Evening", "Morning", "Night"]),
   ("Season", ["Fall", "Spring", "Summer", "Winter"])]

/-- A stub adapter: classifier constantly returning probability 0.55 and
label 1, no scaler, the stub vocabularies. -/
def apiStub : CrimePredictorAPI :=
  { model_predict_proba := fun _ => (0.55 : ℚ)
    model_predict := fun _ => 1
    feature_scaler := Option.none
    label_encoders := Option.some stubEncoders }

/-- A record supplying only the Season feature with a category never seen
during training. -/
def dUnseen : FeatureDict := [("Season", PyVal.str "Monsoon")]

/-- A record whose Hour value cannot be coerced to a float. -/
def dBad : FeatureDict := [("Hour", PyVal.str "noon")]

/-- Two records binding the same values to the same keys in opposite
orders. -/
def dA : FeatureDict :=
  [("Latitude", PyVal.num 41), ("Hour", PyVal.num 12)]

/-- Key-order permutation of `dA`. -/
def dB : FeatureDict :=
  [("Hour", PyVal.num 12), ("Latitude", PyVal.num 41)]

/-- A stub adapter whose classifier constantly returns probability 0.35,
between the two Medium lower bounds found in the source. -/
def api035 : CrimePredictorAPI :=
  { model_predict_proba := fun _ => (0.35 : ℚ)
    model_predict := fun _ => 0
    feature_scaler := Option.none
    label_encoders := Option.none }

/-- A stub adapter whose classifier constantly returns probability 0.7,
exactly at the High boundary. -/
def api070 : CrimePredictorAPI :=
  { model_predict_proba := fun _ => (0.7 : ℚ)
    model_predict := fun _ => 1
    feature_scaler := Option.none
    label_encoders := Option.none }

/-- A stored account row for witness scenarios. -/
def uAlice : UserRow :=
  { id := 1, email := "a@b.com", password := hashpw "secret1" 3,
    name := "A", phone := Option.none, address := Option.none,
    profile_picture := Option.none, role := "user", is_active := true,
    created_at := 0, last_login := Option.none }

/-- A healthy storage state holding `uAlice`. -/
def sAuth : Storage :=
  { users := [uAlice], access_logs := [], next_user_id := 2,
    next_log_id := 1, fail_users_write := false, fail_logs_write := false }

/-- The empty storage state with no faults armed. -/
def s0 : Storage :=
  { users := [], access_logs := [], next_user_id := 1, next_log_id := 1,
    fail_users_write := false, fail_logs_write := false }

/-- The state after the spec scenario's first signup:
`create_account("a@b.com", "secret1", "A")` against the empty store. -/
def s1 : Storage :=
  (create_user s0 "a@b.com" "secret1" "A" Option.none Option.none
    "user" 3 0).1

/-- A storage state holding `uAlice` with the users-write fault armed. -/
def sFault : Storage :=
  { users := [uAlice], access_logs := [], next_user_id := 2,
    next_log_id := 1, fail_users_write := true, fail_logs_write := false }

/-! ## Characterisation of the feature-array loop -/

/-- A fold appending one value and a batch of warnings per element is the
map of the values next to the flat map of the warnings. -/
theorem foldl_append_build {α β γ : Type} (g : α → β) (w : α → List γ) :
    ∀ (xs : List α) (acc : List β × List γ),
      xs.foldl (fun acc x => (acc.1 ++ [g x], acc.2 ++ w x)) acc
        = (acc.1 ++ xs.map g, acc.2 ++ xs.flatMap w)
  | [], acc => by simp
  | x :: xs, acc => by
    rw [List.foldl_cons, foldl_append_build g w xs]
    simp

/-- The array half of `create_feature_array` is the slot value of each
expected feature in order. -/
theorem create_feature_array_fst (encoders : Option (List (String × LabelEncoder)))
    (d : FeatureDict) :
    (create_feature_array encoders d).1
      = expected_features.map (fun f => (feature_slot encoders d f).1) := by
  rw [create_feature_array, foldl_append_build]
  simp

/-- The warning half of `create_feature_array` is the validation summary
followed by the per-slot warnings. -/
theorem create_feature_array_snd (encoders : Option (List (String × LabelEncoder)))
    (d : FeatureDict) :
    (create_feature_array encoders d).2
      = _validate_input_features d
          ++ expected_features.flatMap (fun f => (feature_slot encoders d f).2) := by
  rw [create_feature_array, foldl_append_build]

/-- Dict lookup of an expected feature is unchanged by restriction. -/
theorem lookup_restrict (d : FeatureDict) (f : String)
    (hf : f ∈ expected_features) :
    (restrict d).lookup f = d.lookup f := by
  induction d with
  | nil => rfl
  | cons kv t ih =>
    obtain ⟨k, v⟩ := kv
    by_cases hk : k ∈ expected_features
    · simp [restrict, List.filter_cons, hk, List.lookup_cons] at ih ⊢
      cases h : f == k <;> simp [h, ih]
    · have hne : (f == k) = false := by
        rw [beq_eq_false_iff_ne]
        intro e
        exact hk (e ▸ hf)
      simp [restrict, List.filter_cons, hk, List.lookup_cons, hne] at ih ⊢
      exact ih

/-- Each slot of the feature array is unchanged by restriction. -/
theorem feature_slot_restrict (encoders : Option (List (String × LabelEncoder)))
    (d : FeatureDict) (f : String) (hf : f ∈ expected_features) :
    feature_slot encoders (restrict d) f = feature_slot encoders d f := by
  simp only [feature_slot, lookup_restrict d f hf]

/-- The missing-feature set is unchanged by restriction. -/
theorem missing_keys_restrict (d : FeatureDict) :
    missing_keys (restrict d) = missing_keys d := by
  unfold missing_keys
  exact List.filter_congr (fun f hf => by rw [lookup_restrict d f hf])

/-- A restricted record has no extra keys. -/
theorem extra_keys_restrict (d : FeatureDict) :
    extra_keys (restrict d) = [] := by
  rw [extra_keys, List.filter_eq_nil_iff]
  intro k hk
  simp only [List.mem_map] at hk
  obtain ⟨kv, hkv, rfl⟩ := hk
  have hmem := (List.mem_filter.mp hkv).2
  simp only [decide_eq_true_eq] at hmem
  simp [hmem]

/-- The validation warnings of a record are those of its restriction plus
the extra-keys summary. -/
theorem validate_restrict (d : FeatureDict) :
    _validate_input_features d
      = _validate_input_features (restrict d)
          ++ (if extra_keys d = [] then []
              else [Warning.extraSummary (extra_keys d)]) := by
  rw [_validate_input_features, _validate_input_features,
    missing_keys_restrict, extra_keys_restrict]
  simp

/-! ## Claims about the inference adapter -/

/-- C1: `create_feature_array` builds a vector of exactly 13 entries;
entry `i` is the encoded/coerced slot value for the `i`-th name of the
fixed expected order; and the vector depends only on the values the
record binds to the expected names, never on the key order of the input
mapping. -/
theorem feature_vector_order_contract (api : CrimePredictorAPI)
    (d d' : FeatureDict)
    (h : ∀ f ∈ expected_features, d.lookup f = d'.lookup f) :
    (create_feature_array api.label_encoders d).1.length = 13 ∧
    (∀ i, i < 13 →
      (create_feature_array api.label_encoders d).1.getD i PyVal.none
        = (feature_slot api.label_encoders d (expected_features.getD i "")).1) ∧
    (create_feature_array api.label_encoders d).1
      = (create_feature_array api.label_encoders d').1 := by
  refine ⟨?_, ?_, ?_⟩
  · rw [create_feature_array_fst]
    simp [expected_features]
  · intro i hi
    rw [create_feature_array_fst]
    interval_cases i <;> rfl
  · rw [create_feature_array_fst, create_feature_array_fst]
    exact List.map_congr_left (fun f hf => by simp only [feature_slot, h f hf])

/-- C1 witness: two concrete records binding the same values in opposite
key orders produce the same 13-entry vector. -/
theorem feature_vector_order_contract_witness :
    (∀ f ∈ expected_features, dA.lookup f = dB.lookup f) ∧
    ((create_feature_array apiStub.label_encoders dA).1.length = 13 ∧
     (∀ i, i < 13 →
       (create_feature_array apiStub.label_encoders dA).1.getD i PyVal.none
         = (feature_slot apiStub.label_encoders dA (expected_features.getD i "")).1) ∧
     (create_feature_array apiStub.label_encoders dA).1
       = (create_feature_array apiStub.label_encoders dB).1) :=
  ⟨by decide, feature_vector_order_contract apiStub dA dB (by decide)⟩

/-- C9: prediction is invariant under restricting the input record to the
13 expected names — extra keys never influence the feature vector, the
probability, or the risk tier; they only add the extra-keys warning to
the validation output. -/
theorem predict_ignores_extra_keys (api : CrimePredictorAPI) (d : FeatureDict) :
    predict api (restrict d) = predict api d ∧
    (create_feature_array api.label_encoders (restrict d)).1
      = (create_feature_array api.label_encoders d).1 ∧
    _validate_input_features d
      = _validate_input_features (restrict d)
          ++ (if extra_keys d = [] then []
              else [Warning.extraSummary (extra_keys d)]) := by
  have hvec : (create_feature_array api.label_encoders (restrict d)).1
      = (create_feature_array api.label_encoders d).1 := by
    rw [create_feature_array_fst, create_feature_array_fst]
    exact List.map_congr_left
      (fun f hf => by rw [feature_slot_restrict api.label_encoders d f hf])
  refine ⟨?_, hvec, validate_restrict d⟩
  simp only [predict, hvec]

/-- C4: a categorical value outside the fitted vocabulary is encoded as
integer code 0 with an unseen-category warning, and `predict` still
returns a success result instead of raising. -/
theorem unseen_category_fallback (api : CrimePredictorAPI)
    (encs : List (String × LabelEncoder)) (classes : LabelEncoder)
    (f : String) (v : PyVal) (d : FeatureDict)
    (h1 : api.label_encoders = Option.some encs)
    (h2 : f ∈ categorical_features)
    (h3 : encs.lookup f = Option.some classes)
    (h4 : leTransform? classes v = Option.none)
    (h5 : d.lookup f = Option.some v) :
    feature_slot api.label_encoders d f
      = (PyVal.num 0, [Warning.unseenCategory f]) ∧
    (predict api d).success = true := by
  refine ⟨?_, rfl⟩
  simp only [feature_slot, h5]
  rw [if_pos h2]
  simp only [_encode_categorical_value, h1, h3, h4]

/-- C4 witness: the unseen Season value "Monsoon" is encoded as 0 against
the stub vocabularies and predict succeeds. -/
theorem unseen_category_fallback_witness :
    apiStub.label_encoders = Option.some stubEncoders ∧
    "Season" ∈ categorical_features ∧
    stubEncoders.lookup "Season"
      = Option.some ["Fall", "Spring", "Summer", "Winter"] ∧
    leTransform? ["Fall", "Spring", "Summer", "Winter"] (PyVal.str "Monsoon")
      = Option.none ∧
    dUnseen.lookup "Season" = Option.some (PyVal.str "Monsoon") ∧
    (feature_slot apiStub.label_encoders dUnseen "Season"
        = (PyVal.num 0, [Warning.unseenCategory "Season"]) ∧
      (predict apiStub dUnseen).success = true) :=
  ⟨rfl, by decide, by decide, by decide, by decide,
    unseen_category_fallback apiStub stubEncoders
      ["Fall", "Spring", "Summer", "Winter"] "Season" (PyVal.str "Monsoon")
      dUnseen rfl (by decide) (by decide) (by decide) (by decide)⟩

/-- C5: a missing expected feature, or a non-categorical value that
cannot be coerced to a float, yields slot value 0, a recorded warning
(not an error), and `predict` still returns a success result. -/
theorem lenient_default_zero (api : CrimePredictorAPI) (d : FeatureDict)
    (f : String) (hf : f ∈ expected_features)
    (h : d.lookup f = Option.none ∨
         (¬ f ∈ categorical_features ∧
           ∃ v, d.lookup f = Option.some v ∧ pyFloat? v = Option.none)) :
    (feature_slot api.label_encoders d f).1 = PyVal.num 0 ∧
    ((feature_slot api.label_encoders d f).2 = [Warning.missingFeature f] ∨
     (feature_slot api.label_encoders d f).2 = [Warning.nonNumeric f]) ∧
    (Warning.missingFeature f ∈ (create_feature_array api.label_encoders d).2 ∨
     Warning.nonNumeric f ∈ (create_feature_array api.label_encoders d).2) ∧
    (predict api d).success = true := by
  have hslot : feature_slot api.label_encoders d f
        = (PyVal.num 0, [Warning.missingFeature f]) ∨
      feature_slot api.label_encoders d f
        = (PyVal.num 0, [Warning.nonNumeric f]) := by
    rcases h with hnone | ⟨hcat, v, hv, hfl⟩
    · left
      simp [feature_slot, hnone]
    · right
      simp [feature_slot, hv, hcat, hfl]
  have hmem : ∀ w, feature_slot api.label_encoders d f = (PyVal.num 0, [w]) →
      w ∈ (create_feature_array api.label_encoders d).2 := by
    intro w hw
    rw [create_feature_array_snd]
    refine List.mem_append.mpr (Or.inr ?_)
    refine List.mem_flatMap.mpr ⟨f, hf, ?_⟩
    rw [hw]
    exact List.mem_singleton.mpr rfl
  rcases hslot with hs | hs
  · exact ⟨by rw [hs], Or.inl (by rw [hs]), Or.inl (hmem _ hs), rfl⟩
  · exact ⟨by rw [hs], Or.inr (by rw [hs]), Or.inr (hmem _ hs), rfl⟩

/-- C5 witness: the record supplying only an uncoercible Hour gets slot 0
with a warning and a successful prediction. -/
theorem lenient_default_zero_witness :
    ("Hour" ∈ expected_features) ∧
    (¬ "Hour" ∈ categorical_features ∧
      dBad.lookup "Hour" = Option.some (PyVal.str "noon") ∧
      pyFloat? (PyVal.str "noon") = Option.none) ∧
    ((feature_slot apiStub.label_encoders dBad "Hour").1 = PyVal.num 0 ∧
     ((feature_slot apiStub.label_encoders dBad "Hour").2
          = [Warning.missingFeature "Hour"] ∨
       (feature_slot apiStub.label_encoders dBad "Hour").2
          = [Warning.nonNumeric "Hour"]) ∧
     (Warning.missingFeature "Hour"
          ∈ (create_feature_array apiStub.label_encoders dBad).2 ∨
       Warning.nonNumeric "Hour"
          ∈ (create_feature_array apiStub.label_encoders dBad).2) ∧
     (predict apiStub dBad).success = true) :=
  ⟨by decide, ⟨by decide, by decide, by decide⟩,
    lenient_default_zero apiStub dBad "Hour" (by decide)
      (Or.inr ⟨by decide, PyVal.str "noon", by decide, by decide⟩)⟩

/-- C3 counterexample: at probability 0.35 `predict` returns tier Low,
while the claimed 0.3 Medium lower bound dictates Medium. -/
theorem risk_threshold_claim_refuted :
    (predict api035 []).probability = (0.35 : ℚ) ∧
    (predict api035 []).risk_level = "Low" ∧
    risk_tier_spec (0.3 : ℚ) (predict api035 []).probability = "Medium" := by
  refine ⟨rfl, ?_, ?_⟩
  · show _get_risk_level (0.35 : ℚ) = "Low"
    norm_num [_get_risk_level]
  · show risk_tier_spec (0.3 : ℚ) (0.35 : ℚ) = "Medium"
    norm_num [risk_tier_spec]

/-- C3 amended: `predict` follows the spec's risk map with Medium lower
bound 0.4 (predictor.py), while the 0.3 bound appears only in app.py's
inline risk caption. -/
theorem risk_threshold_amended (api : CrimePredictorAPI) (d : FeatureDict)
    (p : ℚ) :
    (predict api d).risk_level
      = risk_tier_spec (0.4 : ℚ) (predict api d).probability ∧
    app_delta_caption p = risk_tier_spec (0.3 : ℚ) p ++ " risk" := by
  constructor
  · rfl
  · unfold app_delta_caption risk_tier_spec
    split_ifs <;> rfl

/-- C6 counterexample: at the boundary probability 0.7 `predict` assigns
the lower tier Medium, not the claimed higher tier High. -/
theorem boundary_tier_claim_refuted :
    (predict api070 []).probability = (0.7 : ℚ) ∧
    (predict api070 []).risk_level = "Medium" := by
  refine ⟨rfl, ?_⟩
  show _get_risk_level (0.7 : ℚ) = "Medium"
  norm_num [_get_risk_level]

/-- C6 amended: both tier thresholds are strict, so a probability exactly
at a threshold is consistently assigned the lower tier: High exactly
above 0.7, Medium on (0.4, 0.7], Low at or below 0.4. -/
theorem boundary_tier_amended (p : ℚ) :
    (_get_risk_level p = "High" ↔ (0.7 : ℚ) < p) ∧
    (_get_risk_level p = "Medium" ↔ (0.4 : ℚ) < p ∧ p ≤ (0.7 : ℚ)) ∧
    (_get_risk_level p = "Low" ↔ p ≤ (0.4 : ℚ)) := by
  unfold _get_risk_level
  split_ifs with h1 h2
  · exact ⟨iff_of_true rfl h1,
      iff_of_false (by decide) (fun hc => absurd h1 (not_lt.2 hc.2)),
      iff_of_false (by decide)
        (fun hc => absurd h1 (not_lt.2 (le_trans hc (by norm_num))))⟩
  · exact ⟨iff_of_false (by decide) h1,
      iff_of_true rfl ⟨h2, not_lt.1 h1⟩,
      iff_of_false (by decide) (fun hc => absurd h2 (not_lt.2 hc))⟩
  · exact ⟨iff_of_false (by decide) h1,
      iff_of_false (by decide) (fun hc => h2 hc.1),
      iff_of_true rfl (not_lt.1 h2)⟩

/-! ## Claims about the credential store -/

/-- The audit append never touches the users table, whether it succeeds
or is swallowed. -/
theorem log_action_users (s : Storage) (uid : Option ℕ) (a d : String)
    (now : ℕ) : (log_action s uid a d now).users = s.users := by
  unfold log_action sql_insert_log
  by_cases h : s.fail_logs_write <;> simp [h]

/-- C2: every authentication failure — no row with the email, rows with
the email all inactive, or salted-hash mismatch on the fetched active
row — returns one and the same failure value: success false with the
single generic invalid-credentials message, and an unchanged state. -/
theorem authenticate_failure_uniform (s : Storage) (email password : String)
    (now : ℕ)
    (h : (∀ u ∈ s.users, u.email ≠ email) ∨
         ((∃ u ∈ s.users, u.email = email) ∧
           ∀ u ∈ s.users, u.email = email → u.is_active = false) ∨
         (∃ u, fetch_active_user s email = Option.some u ∧
           checkpw password u.password = false)) :
    authenticate_user s email password now
      = (s, false, AuthReply.msg "Invalid email or password") := by
  have fetch_none : (∀ u ∈ s.users, u.email = email → u.is_active = false) →
      fetch_active_user s email = Option.none := by
    intro hq
    unfold fetch_active_user
    have hnil : s.users.filter (fun u => u.email == email && u.is_active) = [] := by
      rw [List.filter_eq_nil_iff]
      intro u hu hp
      rw [Bool.and_eq_true, beq_iff_eq] at hp
      rw [hq u hu hp.1] at hp
      exact Bool.false_ne_true hp.2
    rw [hnil]
    rfl
  have of_none : fetch_active_user s email = Option.none →
      authenticate_user s email password now
        = (s, false, AuthReply.msg "Invalid email or password") := by
    intro hf
    unfold authenticate_user
    rw [hf]
  rcases h with h1 | h2 | ⟨u, hu, hc⟩
  · exact of_none (fetch_none (fun u hu he => absurd he (h1 u hu)))
  · exact of_none (fetch_none h2.2)
  · unfold authenticate_user
    rw [hu]
    simp [hc]

/-- C2 witness: the correct email with a wrong password hits the generic
failure value. -/
theorem authenticate_failure_uniform_witness :
    (∃ u, fetch_active_user sAuth "a@b.com" = Option.some u ∧
      checkpw "wrong" u.password = false) ∧
    authenticate_user sAuth "a@b.com" "wrong" 0
      = (sAuth, false, AuthReply.msg "Invalid email or password") :=
  ⟨⟨uAlice, rfl, rfl⟩,
    authenticate_failure_uniform sAuth "a@b.com" "wrong" 0
      (Or.inr (Or.inr ⟨uAlice, rfl, rfl⟩))⟩

/-- C7: creating an account whose email already exists fails with the
duplicate-email message and leaves the whole state — in particular every
column of the existing account's row — unchanged. -/
theorem create_user_duplicate_email (s : Storage) (email password name : String)
    (phone address : Option String) (role : String) (salt now : ℕ)
    (hfault : s.fail_users_write = false)
    (hdup : s.users.any (fun u => u.email == email) = true) :
    create_user s email password name phone address role salt now
      = (s, false, "Email already exists") := by
  unfold create_user sql_insert_user
  rw [hfault, hdup]
  simp

/-- C7 witness: the spec's end-to-end scenario — create "a@b.com" as "A",
then create "a@b.com" as "B": the second call fails with the
duplicate-email message and the stored name remains "A". -/
theorem create_user_duplicate_email_witness :
    s1.fail_users_write = false ∧
    s1.users.any (fun u => u.email == "a@b.com") = true ∧
    s1.users.map UserRow.name = ["A"] ∧
    create_user s1 "a@b.com" "other2" "B" Option.none Option.none "user" 5 1
      = (s1, false, "Email already exists") :=
  ⟨rfl, rfl, rfl,
    create_user_duplicate_email s1 "a@b.com" "other2" "B" Option.none
      Option.none "user" 5 1 rfl rfl⟩

/-- C8: a storage write fault inside `create_user` or inside the
login-timestamp update of `authenticate_user` is caught and converted to
a (success=false, message) result, and the audit-log fault flag never
changes the primary (success, message) outcome of either operation. -/
theorem storage_errors_caught (s : Storage) (email password name : String)
    (phone address : Option String) (role : String) (salt now : ℕ) (b : Bool) :
    ((create_user { s with fail_logs_write := b } email password name
        phone address role salt now).2
      = (create_user { s with fail_logs_write := false } email password name
          phone address role salt now).2) ∧
    ((authenticate_user { s with fail_logs_write := b } email password now).2
      = (authenticate_user { s with fail_logs_write := false }
          email password now).2) ∧
    (s.fail_users_write = true →
      create_user s email password name phone address role salt now
        = (s, false, "Error creating user: disk I/O error")) ∧
    (s.fail_users_write = true →
      ∀ u, fetch_active_user s email = Option.some u →
        checkpw password u.password = true →
        authenticate_user s email password now
          = (s, false, AuthReply.msg "Authentication error: disk I/O error")) := by
  refine ⟨?_, ?_, ?_, ?_⟩
  · unfold create_user sql_insert_user log_action sql_insert_log
    by_cases hw : s.fail_users_write
    · simp [hw]
    · by_cases ha : s.users.any (fun u => u.email == email) = true
      · simp [hw, ha]
      · cases b <;> simp [hw, ha]
  · unfold authenticate_user update_last_login log_action sql_insert_log
    have hfb : fetch_active_user { s with fail_logs_write := b } email
        = fetch_active_user s email := rfl
    have hff : fetch_active_user { s with fail_logs_write := false } email
        = fetch_active_user s email := rfl
    rw [hfb, hff]
    cases hf : fetch_active_user s email with
    | none => rfl
    | some u =>
      by_cases hc : checkpw password u.password
      · by_cases hw : s.fail_users_write
        · simp [hc, hw]
        · cases b <;> simp [hc, hw]
      · simp [hc]
  · intro hw
    unfold create_user sql_insert_user
    rw [hw]
    simp
    rfl
  · intro hw u hu hc
    unfold authenticate_user update_last_login
    rw [hu, hw]
    simp [hc]
    rfl

/-- C8 witness: with the users-write fault armed, both operations return
caught (success=false, message) results. -/
theorem storage_errors_caught_witness :
    sFault.fail_users_write = true ∧
    fetch_active_user sFault "a@b.com" = Option.some uAlice ∧
    checkpw "secret1" uAlice.password = true ∧
    create_user sFault "x@y.com" "pw" "X" Option.none Option.none "user" 1 0
      = (sFault, false, "Error creating user: disk I/O error") ∧
    authenticate_user sFault "a@b.com" "secret1" 0
      = (sFault, false, AuthReply.msg "Authentication error: disk I/O error") :=
  ⟨rfl, rfl, rfl,
    (storage_errors_caught sFault "x@y.com" "pw" "X" Option.none Option.none
        "user" 1 0 true).2.2.1 rfl,
    (storage_errors_caught sFault "a@b.com" "secret1" "X" Option.none
        Option.none "user" 1 0 true).2.2.2 rfl uAlice rfl rfl⟩

/-- C10: password change and active-status toggle on a user id that
matches no row still report success with their success messages, and the
users table is unchanged. -/
theorem zero_row_update_reports_success (s : Storage) (uid : ℕ)
    (new_password : String) (salt now : ℕ) (flag : Bool)
    (hfault : s.fail_users_write = false)
    (hno : ∀ u ∈ s.users, u.id ≠ uid) :
    (change_user_password s uid new_password salt now).2
        = (true, "Password changed successfully") ∧
    (change_user_password s uid new_password salt now).1.users = s.users ∧
    (toggle_user_active_status s uid flag now).2
        = (true, "User " ++ (if flag then "activated" else "deactivated")
            ++ " successfully") ∧
    (toggle_user_active_status s uid flag now).1.users = s.users := by
  have hmap : ∀ (g : UserRow → UserRow),
      s.users.map (fun u => if u.id = uid then g u else u) = s.users := by
    intro g
    have h1 : s.users.map (fun u => if u.id = uid then g u else u)
        = s.users.map id :=
      List.map_congr_left (fun u hu => if_neg (hno u hu))
    rw [h1, List.map_id]
  refine ⟨?_, ?_, ?_, ?_⟩
  · unfold change_user_password sql_update_password
    rw [hfault]
    simp
  · unfold change_user_password sql_update_password
    rw [hfault]
    simp [log_action_users, hmap]
  · unfold toggle_user_active_status sql_update_active
    rw [hfault]
    simp
  · unfold toggle_user_active_status sql_update_active
    rw [hfault]
    simp [log_action_users, hmap]

/-- C10 witness: updating password and active flag for the absent id 99
reports success and leaves the users table alone. -/
theorem zero_row_update_reports_success_witness :
    sAuth.fail_users_write = false ∧
    (∀ u ∈ sAuth.users, u.id ≠ 99) ∧
    ((change_user_password sAuth 99 "newpw" 7 2).2
        = (true, "Password changed successfully") ∧
     (change_user_password sAuth 99 "newpw" 7 2).1.users = sAuth.users ∧
     (toggle_user_active_status sAuth 99 false 2).2
        = (true, "User " ++ (if false then "activated" else "deactivated")
            ++ " successfully") ∧
     (toggle_user_active_status sAuth 99 false 2).1.users = sAuth.users) :=
  ⟨rfl, by decide,
    zero_row_update_reports_success sAuth 99 "newpw" 7 2 false rfl (by decide)⟩

end CrimeCast
